import Mathlib

/-!
Verification of the transaction aggregation and reporting engine of
GIDPARTNERS/gid-finance-system (src/app.py).

The engine is embedded shallowly:

* the two sqlite tables become Lean lists (`List Transaction`, `List Project`),
  in insertion (rowid) order; store-assigned fields (`id`, `created_at`) play no
  role in any computation and are omitted;
* sqlite REAL amounts become exact rationals;
* `date` TEXT columns hold ISO strings; they are embedded as
  year/month/day triples, whose lexicographic order coincides with the
  byte-wise TEXT order sqlite applies to well-formed ISO dates;
* nullable columns become `Option`; pandas `notna` becomes `Option.isSome`;
* pandas groupby becomes `List.dedup` plus `List.insertionSort` on the
  group keys, emitted in ascending order as pandas does; a pandas sort
  whose tie order the code does not pin down (`sort_values` under its
  default quicksort kind) is embedded as `List.insertionSort` too, as one
  executable refinement, and no theorem relies on its tie order;
* the Korean type labels of the source are kept verbatim: the income label
  is the string named by `incomeLabel` and the expense label by
  `expenseLabel`;
* fallible operations return `Except`, and the sqlite transaction that
  wraps a bulk import (commit on success, rollback on error) becomes a
  function returning the new table on success and the untouched table
  together with an error message on failure.
-/

namespace GidFinance

/-- A calendar date as stored in the `date` TEXT column (ISO `YYYY-MM-DD`). -/
structure Date where
  year : Nat
  month : Nat
  day : Nat
deriving DecidableEq, Repr

/-- Byte-wise order of ISO date strings, i.e. lexicographic order on
(year, month, day). This is the order sqlite uses for `ORDER BY date` and
`BETWEEN` on the TEXT column. -/
def Date.le (a b : Date) : Prop :=
  a.year < b.year ∨ (a.year = b.year ∧
    (a.month < b.month ∨ (a.month = b.month ∧ a.day ≤ b.day)))

instance : DecidableRel Date.le := fun a b => by
  unfold Date.le; exact inferInstance

theorem Date.le_total (a b : Date) : Date.le a b ∨ Date.le b a := by
  unfold Date.le; omega

theorem Date.le_trans {a b c : Date} (h1 : Date.le a b) (h2 : Date.le b c) :
    Date.le a c := by
  unfold Date.le at *; omega

/-- A row of the `transactions` table (app.py lines 22-33); the
store-assigned `id` and `created_at` columns are omitted. -/
structure Transaction where
  date : Date
  type : String
  category : String
  project : Option String
  description : Option String
  amount : ℚ
deriving DecidableEq, Repr

/-- A row of the `projects` table (app.py lines 36-45); the store-assigned
`id` and `created_at` columns are omitted. -/
structure Project where
  name : String
  client : Option String
  budget : ℚ
  status : String
deriving DecidableEq, Repr

/-- The income type label used throughout app.py. -/
def incomeLabel : String := "수입"

/-- The expense type label used throughout app.py. -/
def expenseLabel : String := "지출"

/-- The relation behind `ORDER BY date DESC` (app.py line 85). -/
def dateDesc (a b : Transaction) : Prop := Date.le b.date a.date

instance : DecidableRel dateDesc := fun a b => by
  unfold dateDesc; exact inferInstance

/-- app.py `add_transaction` (lines 51-59): a plain INSERT, appending the
row to the `transactions` table. -/
def add_transaction (ledger : List Transaction) (trans_date : Date)
    (trans_type category : String) (project description : Option String)
    (amount : ℚ) : List Transaction :=
  ledger ++ [⟨trans_date, trans_type, category, project, description, amount⟩]

/-- app.py `add_project` (lines 62-75): INSERT into `projects`; the UNIQUE
constraint on `name` (byte-wise, hence case-sensitive comparison) makes the
insert fail with `sqlite3.IntegrityError` when any stored project, whatever
its status, already carries the name, in which case the function returns
`False` and the table is unchanged; otherwise the row is stored with the
default status `active` and the function returns `True`. -/
def add_project (ps : List Project) (name : String) (client : Option String)
    (budget : ℚ) : Bool × List Project :=
  if ps.any (fun p => p.name == name) then (false, ps)
  else (true, ps ++ [⟨name, client, budget, "active"⟩])

/-- app.py `get_transactions` (lines 78-89): the `WHERE date BETWEEN`
clause is added only when both bounds are supplied (`if start_date and
end_date`), and the result is always ordered by `date DESC`. -/
def get_transactions (table : List Transaction)
    (start_date end_date : Option Date) : List Transaction :=
  let rows := match start_date, end_date with
    | some s, some e =>
        table.filter (fun t => decide (Date.le s t.date) && decide (Date.le t.date e))
    | _, _ => table
  List.insertionSort dateDesc rows

/-- app.py `get_projects` (lines 91-95): SELECT from projects restricted
to rows WHERE status equals active. -/
def get_projects (ps : List Project) : List Project :=
  ps.filter (fun p => p.status == "active")

/-- app.py `calculate_metrics` (lines 98-107). -/
def calculate_metrics (df : List Transaction) : ℚ × ℚ × ℚ × ℚ :=
  if df = [] then (0, 0, 0, 0)
  else
    let income := ((df.filter (fun t => t.type == incomeLabel)).map Transaction.amount).sum
    let expense := ((df.filter (fun t => t.type == expenseLabel)).map Transaction.amount).sum
    let profit := income - expense
    let profit_margin := if 0 < income then profit / income * 100 else 0
    (income, expense, profit, profit_margin)

/-- The aggregation lambda of app.py line 115: within the group of rows
whose `project` equals `p`, income amounts minus expense amounts. -/
def groupNet (df : List Transaction) (p : String) : ℚ :=
  ((df.filter (fun t => t.project == some p && t.type == incomeLabel)).map Transaction.amount).sum
  - ((df.filter (fun t => t.project == some p && t.type == expenseLabel)).map Transaction.amount).sum

/-- The group keys of app.py line 114: the distinct non-null `project`
values; pandas groupby emits them deduplicated and in ascending order. -/
def projectKeys (df : List Transaction) : List String :=
  List.insertionSort (· ≤ ·) ((df.filterMap Transaction.project).dedup)

/-- The aggregated one-row-per-project frame of app.py lines 114-117,
before the final sort. -/
def projectRows (df : List Transaction) : List (String × ℚ) :=
  (projectKeys df).map (fun p => (p, groupNet df p))

/-- Net contribution descending: the sort relation of app.py line 119
(`sort_values` by the aggregated column, `ascending=False`). -/
def netGe (a b : String × ℚ) : Prop := b.2 ≤ a.2

instance : DecidableRel netGe := fun a b => by
  unfold netGe; exact inferInstance

/-- app.py `project_profitability` (lines 110-119): rows with a non-null
`project` are grouped by project, each group is aggregated by `groupNet`,
and the resulting frame is sorted by net contribution descending with
`sort_values` under its default sort kind (quicksort), whose order among
tied net contributions is unspecified.  The `List.insertionSort` used
here is one executable refinement of that sort: it realises the
documented net-descending order, but its tie order (it is stable) is an
over-specification that no theorem below relies on. -/
def project_profitability (df : List Transaction) : List (String × ℚ) :=
  if df = [] then []
  else List.insertionSort netGe (projectRows df)

/-- The year-month bucket of a transaction: app.py lines 399-400 convert
`date` to a period keyed by the year and month components only. -/
def monthKey (t : Transaction) : Nat × Nat := (t.date.year, t.date.month)

/-- Ascending order on year-month buckets (the order of the `"YYYY-MM"`
strings pandas renders the periods to). -/
def monthLe (a b : Nat × Nat) : Prop := a.1 < b.1 ∨ (a.1 = b.1 ∧ a.2 ≤ b.2)

/-- Strict ascending order on year-month buckets. -/
def monthLt (a b : Nat × Nat) : Prop := a.1 < b.1 ∨ (a.1 = b.1 ∧ a.2 < b.2)

instance : DecidableRel monthLe := fun a b => by
  unfold monthLe; exact inferInstance

instance : DecidableRel monthLt := fun a b => by
  unfold monthLt; exact inferInstance

/-- Order on the `(month, type)` group keys of the monthly pivot. -/
def cellLe (a b : (Nat × Nat) × String) : Prop :=
  monthLt a.1 b.1 ∨ (a.1 = b.1 ∧ a.2 ≤ b.2)

instance : DecidableRel cellLe := fun a b => by
  unfold cellLe; exact inferInstance

/-- The distinct `(month, type)` group keys of the app.py line 402
groupby, in the ascending order pandas emits them. -/
def pivotCells (df : List Transaction) : List ((Nat × Nat) × String) :=
  List.insertionSort cellLe ((df.map (fun t => (monthKey t, t.type))).dedup)

/-- The `amount` sum of one `(month, type)` group (app.py line 402). -/
def cellSum (df : List Transaction) (c : (Nat × Nat) × String) : ℚ :=
  ((df.filter (fun t => (monthKey t, t.type) == c)).map Transaction.amount).sum

/-- The one-row-per-group frame produced by the app.py line 402 groupby. -/
def groupedCells (df : List Transaction) : List (((Nat × Nat) × String) × ℚ) :=
  (pivotCells df).map (fun c => (c, cellSum df c))

/-- Reading one cell of the app.py line 403 pivot: the group sum when the
`(month, type)` group exists, and `0` otherwise — `fillna(0)` for a type
absent from a month, and `.get(column, 0)` for a type absent from every
month. -/
def pivotGet (df : List Transaction) (m : Nat × Nat) (ty : String) : ℚ :=
  match (groupedCells df).find? (fun g => g.1 == (m, ty)) with
  | some g => g.2
  | none => 0

/-- The month axis of the pivot: the distinct months present, ascending. -/
def monthAxis (df : List Transaction) : List (Nat × Nat) :=
  List.insertionSort monthLe ((df.map monthKey).dedup)

/-- app.py lines 399-409, the monthly report (shown only when the window
is non-empty): group by `(month, type)` summing `amount`, pivot months
against types filling absent cells with `0`, and add the net column.
Each output row is `(month, income, expense, net)`. -/
def monthly_report (df : List Transaction) :
    List ((Nat × Nat) × ℚ × ℚ × ℚ) :=
  if df = [] then []
  else
    (monthAxis df).map (fun m =>
      (m, pivotGet df m incomeLabel, pivotGet df m expenseLabel,
        pivotGet df m incomeLabel - pivotGet df m expenseLabel))

/-- One row of an imported spreadsheet (app.py line 427): every column is
optional, a column missing from the file supplying `none` in each row. -/
structure RawRow where
  date : Option Date
  type : Option String
  category : Option String
  project : Option String
  description : Option String
  amount : Option ℚ
deriving DecidableEq, Repr

/-- One INSERT issued by `to_sql` (app.py line 433): the NOT NULL
constraints on `date`, `type`, `category` and `amount` reject a row in
which any of those values is missing. -/
def insertRaw (r : RawRow) : Option Transaction :=
  match r.date, r.type, r.category, r.amount with
  | some d, some ty, some c, some a => some ⟨d, ty, c, r.project, r.description, a⟩
  | _, _, _, _ => none

/-- The row-by-row appending performed by `to_sql` inside a single store
transaction: the first constraint violation aborts with an error. -/
def appendRows : List Transaction → List RawRow → Except String (List Transaction)
  | ledger, [] => .ok ledger
  | ledger, r :: rs =>
    match insertRaw r with
    | some t => appendRows (ledger ++ [t]) rs
    | none => .error "IntegrityError: NOT NULL constraint failed"

/-- app.py lines 431-436 wrapped in the line 426 try/except: on success the
appended table is committed, on any error the transaction is rolled back,
leaving the table as it was, and the error is displayed. -/
def runImport (ledger : List Transaction) (rows : List RawRow) :
    List Transaction × Option String :=
  match appendRows ledger rows with
  | .ok l => (l, none)
  | .error e => (ledger, some e)

/-- app.py lines 251-258, the interactive save button: the transaction is
written iff `amount > 0`, otherwise an error message is shown and nothing
is written. -/
def saveTransaction (ledger : List Transaction) (trans_date : Date)
    (trans_type category : String) (project description : Option String)
    (amount : ℚ) : Except String (List Transaction) :=
  if 0 < amount then
    .ok (add_transaction ledger trans_date trans_type category project description amount)
  else .error "금액을 입력해주세요."

/-- app.py lines 318-326, the project save button: an empty name is
rejected outright, otherwise `add_project` runs and its `False` return is
reported as the duplicate-name error. -/
def saveProject (ps : List Project) (name : String) (client : Option String)
    (budget : ℚ) : Except String (List Project) :=
  if name = "" then .error "프로젝트명을 입력해주세요."
  else
    match add_project ps name client budget with
    | (true, ps2) => .ok ps2
    | (false, _) => .error "이미 존재하는 프로젝트명입니다."

/-- A named sheet of the export workbook. -/
inductive Sheet where
  | txSheet (rows : List Transaction)
  | projSheet (rows : List Project)
deriving DecidableEq, Repr

/-- app.py lines 443-458, the export tab: nothing is offered when the
filtered window `df` is empty; otherwise the workbook holds the
transactions sheet and, only when at least one active project exists
(line 450 `if not projects.empty`), the projects sheet. -/
def exportArtifact (df : List Transaction) (projTable : List Project) :
    Option (List (String × Sheet)) :=
  if df = [] then none
  else
    let ps := get_projects projTable
    some ([("거래내역", Sheet.txSheet df)] ++
      (if ps = [] then [] else [("프로젝트", Sheet.projSheet ps)]))

/-- Spec-side formulation: the sum of `amount` over records of the given
type, written as a single pass over the sequence. -/
def sumByType (df : List Transaction) (ty : String) : ℚ :=
  (df.map (fun t => if t.type = ty then t.amount else 0)).sum

/-- Spec-side formulation of a month bucket cell: the sum of `amount` over
records of the given type falling in the given year-month. -/
def monthTypeSum (df : List Transaction) (m : Nat × Nat) (ty : String) : ℚ :=
  sumByType (df.filter (fun t => monthKey t == m)) ty

/-! ### Order instances for the sorting relations -/

instance : IsTotal Transaction dateDesc :=
  ⟨fun a b => (Date.le_total b.date a.date).imp id id⟩

instance : IsTrans Transaction dateDesc :=
  ⟨fun _ _ _ h1 h2 => Date.le_trans h2 h1⟩

instance : IsTotal (Nat × Nat) monthLe :=
  ⟨fun a b => by unfold monthLe; omega⟩

instance : IsTrans (Nat × Nat) monthLe :=
  ⟨fun a b c => by unfold monthLe; omega⟩

/-! ### Summation helpers -/

theorem sum_map_filter {α : Type} (p : α → Bool) (f : α → ℚ) :
    ∀ l : List α, ((l.filter p).map f).sum = (l.map fun x => if p x then f x else 0).sum := by
  intro l
  induction l with
  | nil => simp
  | cons x xs ih =>
    cases h : p x <;> simp [List.filter_cons, h, ih]

theorem typeSum_eq (df : List Transaction) (ty : String) :
    ((df.filter (fun t => t.type == ty)).map Transaction.amount).sum = sumByType df ty := by
  rw [sumByType, sum_map_filter]
  congr 1
  exact List.map_congr_left fun t _ => by by_cases h : t.type = ty <;> simp [h]

theorem sumByType_eq_zero {df : List Transaction} {ty : String}
    (h : ∀ t ∈ df, t.type ≠ ty) : sumByType df ty = 0 := by
  rw [sumByType]
  exact List.sum_eq_zero fun x hx => by
    obtain ⟨t, ht, rfl⟩ := List.mem_map.mp hx
    simp [h t ht]

/-! ### C1: the Metrics Calculator -/

/-- C1.  For every finite sequence of transactions, `calculate_metrics`
returns `(total_income, total_expense, net_profit, profit_margin_percent)`
where `total_income` is the sum of `amount` over records with the income
type, `total_expense` the sum over records with the expense type,
`net_profit = total_income - total_expense`, and `profit_margin_percent`
is `net_profit / total_income * 100` when `total_income > 0` and `0`
otherwise; the empty sequence yields `(0, 0, 0, 0)`. -/
theorem metrics_spec (df : List Transaction) :
    calculate_metrics df =
      (sumByType df incomeLabel, sumByType df expenseLabel,
       sumByType df incomeLabel - sumByType df expenseLabel,
       if 0 < sumByType df incomeLabel then
         (sumByType df incomeLabel - sumByType df expenseLabel)
           / sumByType df incomeLabel * 100
       else 0)
    ∧ calculate_metrics [] = (0, 0, 0, 0) := by
  constructor
  · unfold calculate_metrics
    by_cases h : df = []
    · subst h
      simp [sumByType]
    · rw [if_neg h, typeSum_eq, typeSum_eq]
  · rfl

/-! ### C8: order-independence of the Metrics Calculator -/

/-- C8.  For every transaction sequence and every permutation of it,
`calculate_metrics` returns an identical `(income, expense, profit,
margin)` tuple on the permuted sequence as on the original. -/
theorem metrics_perm_invariant (df1 df2 : List Transaction)
    (h : df1.Perm df2) : calculate_metrics df1 = calculate_metrics df2 := by
  unfold calculate_metrics
  by_cases e : df1 = []
  · subst e
    rw [h.nil_eq]
  · have e2 : df2 ≠ [] := fun e2 => e (e2 ▸ h).eq_nil
    rw [if_neg e, if_neg e2,
      ((h.filter (fun t => t.type == incomeLabel)).map Transaction.amount).sum_eq,
      ((h.filter (fun t => t.type == expenseLabel)).map Transaction.amount).sum_eq]

/-! ### C6: interactive transaction validation -/

/-- C6.  A candidate transaction entered interactively is accepted and
written to the ledger iff its amount is strictly positive; a candidate
with amount zero is rejected with the validation error and no write
occurs. -/
theorem save_transaction_iff_positive (ledger : List Transaction)
    (d : Date) (ty cat : String) (proj desc : Option String) (amount : ℚ) :
    ((∃ l2, saveTransaction ledger d ty cat proj desc amount = .ok l2) ↔ 0 < amount)
    ∧ (0 < amount →
        saveTransaction ledger d ty cat proj desc amount =
          .ok (ledger ++ [⟨d, ty, cat, proj, desc, amount⟩]))
    ∧ (amount = 0 →
        saveTransaction ledger d ty cat proj desc amount =
          .error "금액을 입력해주세요.") := by
  unfold saveTransaction add_transaction
  by_cases h : 0 < amount
  · rw [if_pos h]
    exact ⟨⟨fun _ => h, fun _ => ⟨_, rfl⟩⟩, fun _ => rfl,
      fun e => absurd h (by rw [e]; exact lt_irrefl 0)⟩
  · rw [if_neg h]
    refine ⟨⟨?_, fun hp => absurd hp h⟩, fun hp => absurd hp h, fun _ => rfl⟩
    rintro ⟨l2, hl⟩
    cases hl

/-- Witness for C6: saving with amount `0` is rejected with the
validation message. -/
theorem save_transaction_iff_positive_witness :
    saveTransaction [] ⟨2024, 1, 1⟩ incomeLabel "자문료" none none 0 =
      .error "금액을 입력해주세요." :=
  (save_transaction_iff_positive [] ⟨2024, 1, 1⟩ incomeLabel "자문료" none none 0).2.2 rfl

/-! ### C7: project name uniqueness -/

/-- C7.  In any reachable projects table (all stored names are non-empty,
since the empty name is rejected before the insert), a creation request
whose name equals, case-sensitively, the name of any existing project of
whatever status is rejected with the duplicate-name error and nothing is
written, while a request with a previously unused non-empty name succeeds
and appends the project with status `active`. -/
theorem project_name_unique (ps : List Project) (name : String)
    (client : Option String) (budget : ℚ)
    (hps : ∀ p ∈ ps, p.name ≠ "") :
    ((∃ p ∈ ps, p.name = name) →
       saveProject ps name client budget = .error "이미 존재하는 프로젝트명입니다.")
    ∧ (name ≠ "" → (∀ p ∈ ps, p.name ≠ name) →
       saveProject ps name client budget =
         .ok (ps ++ [⟨name, client, budget, "active"⟩])) := by
  constructor
  · rintro ⟨p, hp, he⟩
    have hname : name ≠ "" := he ▸ hps p hp
    have hany : ps.any (fun q => q.name == name) = true :=
      List.any_eq_true.mpr ⟨p, hp, by simp [he]⟩
    unfold saveProject add_project
    rw [if_neg hname, if_pos hany]
  · intro h1 h2
    have hany : ps.any (fun q => q.name == name) = false := by
      rw [List.any_eq_false]
      intro p hp
      simp [h2 p hp]
    unfold saveProject add_project
    rw [if_neg h1, if_neg (by simp [hany])]

/-- Witness for C7: with one stored project named `A`, creating another
project named `A` is rejected with the duplicate-name error. -/
theorem project_name_unique_witness :
    (∀ p ∈ [(⟨"A", none, 0, "active"⟩ : Project)], p.name ≠ "")
    ∧ saveProject [⟨"A", none, 0, "active"⟩] "A" none 0 =
        .error "이미 존재하는 프로젝트명입니다." :=
  ⟨by decide,
    (project_name_unique [⟨"A", none, 0, "active"⟩] "A" none 0 (by decide)).1
      ⟨⟨"A", none, 0, "active"⟩, List.mem_singleton.mpr rfl, rfl⟩⟩

/-! ### C10: the date-range filter of the transaction query -/

/-- C10.  The query applies its date-range restriction only when both a
start and an end date are supplied: with only one bound, or none, it
returns the entire table, ordered date-descending, identical to the
unbounded query. -/
theorem query_ignores_single_bound (table : List Transaction)
    (s e : Option Date) (h : s = none ∨ e = none) :
    get_transactions table s e = get_transactions table none none
    ∧ (get_transactions table s e).Perm table
    ∧ List.Sorted dateDesc (get_transactions table s e) := by
  have heq : get_transactions table s e = get_transactions table none none := by
    unfold get_transactions
    rcases h with h | h
    · subst h; cases e <;> rfl
    · subst h; cases s <;> rfl
  refine ⟨heq, ?_, ?_⟩
  · rw [heq]
    exact List.perm_insertionSort dateDesc table
  · rw [heq]
    exact List.sorted_insertionSort dateDesc table

/-- Witness for C10: a query with only a start date equals the unbounded
query on a one-row table. -/
theorem query_ignores_single_bound_witness :
    ((some (⟨2024, 1, 1⟩ : Date) = none ∨ (none : Option Date) = none))
    ∧ get_transactions
        [⟨⟨2024, 3, 1⟩, incomeLabel, "자문료", none, none, 100⟩]
        (some ⟨2024, 1, 1⟩) none =
      get_transactions
        [⟨⟨2024, 3, 1⟩, incomeLabel, "자문료", none, none, 100⟩] none none :=
  ⟨Or.inr rfl,
    (query_ignores_single_bound
      [⟨⟨2024, 3, 1⟩, incomeLabel, "자문료", none, none, 100⟩]
      (some ⟨2024, 1, 1⟩) none (Or.inr rfl)).1⟩

/-! ### Sample data used by witnesses and counterexamples -/

/-- A sample stored transaction. -/
def sampleTx : Transaction :=
  ⟨⟨2024, 3, 1⟩, incomeLabel, "자문료", some "A", none, 100⟩

/-- A sample import row from a batch missing the amount column. -/
def missingAmountRow : RawRow :=
  ⟨some ⟨2024, 3, 2⟩, some expenseLabel, some "인건비", none, none, none⟩

/-- A sample import row duplicating `sampleTx`. -/
def dupRow : RawRow :=
  ⟨some ⟨2024, 3, 1⟩, some incomeLabel, some "자문료", some "A", none, some 100⟩

/-- A sample import row whose amount is zero, which the interactive
validator would reject. -/
def zeroAmountRow : RawRow :=
  ⟨some ⟨2024, 4, 1⟩, some expenseLabel, some "인건비", none, none, some 0⟩

/-! ### C4: atomic rejection of structurally malformed import batches -/

/-- A tabular batch missing one of the required columns (`date`, `type`,
`category`, `amount`): to the inserts of `to_sql` a missing column is a
NULL in that field of every row. -/
def missingRequiredColumn (rows : List RawRow) : Prop :=
  (∀ r ∈ rows, r.date = none) ∨ (∀ r ∈ rows, r.type = none)
    ∨ (∀ r ∈ rows, r.category = none) ∨ (∀ r ∈ rows, r.amount = none)

theorem insertRaw_eq_none_of_missing {r : RawRow}
    (h : r.date = none ∨ r.type = none ∨ r.category = none ∨ r.amount = none) :
    insertRaw r = none := by
  obtain ⟨rd, rty, rc, rp, rdesc, ra⟩ := r
  cases rd <;> cases rty <;> cases rc <;> cases ra <;> simp_all [insertRaw]

/-- Counterexample to C4 as stated: a batch with no data rows that is
missing the amount column is imported without any error being signalled
(zero rows are appended and the success path runs). -/
theorem import_missing_column_counterexample :
    missingRequiredColumn ([] : List RawRow)
    ∧ runImport [sampleTx] ([] : List RawRow) = ([sampleTx], none) :=
  ⟨Or.inl (by simp), rfl⟩

/-- C4, amended.  For every non-empty import batch missing a required
column, the import signals an error and the ledger is unchanged: no row
of the batch is appended. -/
theorem import_missing_column_rejected (ledger : List Transaction)
    (rows : List RawRow) (hne : rows ≠ [])
    (hmiss : missingRequiredColumn rows) :
    (runImport ledger rows).1 = ledger
    ∧ (runImport ledger rows).2.isSome := by
  obtain ⟨r, rs, rfl⟩ := List.exists_cons_of_ne_nil hne
  have hr : insertRaw r = none := insertRaw_eq_none_of_missing (by
    rcases hmiss with h | h | h | h
    · exact Or.inl (h r (List.mem_cons_self r rs))
    · exact Or.inr (Or.inl (h r (List.mem_cons_self r rs)))
    · exact Or.inr (Or.inr (Or.inl (h r (List.mem_cons_self r rs))))
    · exact Or.inr (Or.inr (Or.inr (h r (List.mem_cons_self r rs)))))
  have herr : appendRows ledger (r :: rs) =
      .error "IntegrityError: NOT NULL constraint failed" := by
    unfold appendRows
    rw [hr]
  constructor <;> simp [runImport, herr]

/-- Witness for the amended C4: a one-row batch missing the amount column
is rejected and the ledger keeps its single row. -/
theorem import_missing_column_rejected_witness :
    (([missingAmountRow] : List RawRow) ≠ []
      ∧ missingRequiredColumn [missingAmountRow])
    ∧ (runImport [sampleTx] [missingAmountRow]).1 = [sampleTx]
    ∧ (runImport [sampleTx] [missingAmountRow]).2.isSome :=
  ⟨⟨by simp, Or.inr (Or.inr (Or.inr (fun r hr => by
      rw [List.mem_singleton.mp hr]; rfl)))⟩,
    import_missing_column_rejected [sampleTx] [missingAmountRow] (by simp)
      (Or.inr (Or.inr (Or.inr (fun r hr => by
        rw [List.mem_singleton.mp hr]; rfl))))⟩

/-! ### C5: imports append everything, with no validation and no
deduplication -/

theorem appendRows_ok :
    ∀ (rows : List RawRow) (ledger : List Transaction),
      (∀ r ∈ rows, (insertRaw r).isSome) →
      appendRows ledger rows = .ok (ledger ++ rows.filterMap insertRaw) := by
  intro rows
  induction rows with
  | nil =>
    intro ledger _
    simp [appendRows]
  | cons r rs ih =>
    intro ledger h
    obtain ⟨t, ht⟩ := Option.isSome_iff_exists.mp (h r (List.mem_cons_self r rs))
    rw [appendRows, ht]
    show appendRows (ledger ++ [t]) rs
      = Except.ok (ledger ++ List.filterMap insertRaw (r :: rs))
    rw [ih (ledger ++ [t]) (fun x hx => h x (List.mem_cons_of_mem r hx))]
    simp [List.filterMap_cons, ht]

theorem length_filterMap_insertRaw :
    ∀ rows : List RawRow, (∀ r ∈ rows, (insertRaw r).isSome) →
      (rows.filterMap insertRaw).length = rows.length := by
  intro rows
  induction rows with
  | nil => intro _; rfl
  | cons r rs ih =>
    intro h
    obtain ⟨t, ht⟩ := Option.isSome_iff_exists.mp (h r (List.mem_cons_self r rs))
    simp [List.filterMap_cons, ht, ih (fun x hx => h x (List.mem_cons_of_mem r hx))]

/-- C5.  A well-formed batch (every row carries the required fields) is
appended in full: no admission rule is applied (no hypothesis constrains
the amounts) and no deduplication happens, so importing into any ledger —
in particular re-importing into a ledger that already contains the batch —
grows the transaction count by exactly the row count. -/
theorem import_appends_all (ledger : List Transaction) (rows : List RawRow)
    (h : ∀ r ∈ rows, (insertRaw r).isSome) :
    runImport ledger rows = (ledger ++ rows.filterMap insertRaw, none)
    ∧ (runImport ledger rows).1.length = ledger.length + rows.length
    ∧ (runImport (runImport ledger rows).1 rows).1.length
        = (runImport ledger rows).1.length + rows.length := by
  have hlen : ∀ L : List Transaction,
      (runImport L rows).1.length = L.length + rows.length := by
    intro L
    unfold runImport
    rw [appendRows_ok rows L h]
    simp [length_filterMap_insertRaw rows h]
  have h1 : runImport ledger rows = (ledger ++ rows.filterMap insertRaw, none) := by
    unfold runImport
    rw [appendRows_ok rows ledger h]
  exact ⟨h1, hlen ledger, hlen _⟩

/-- Witness for C5: a two-row batch — one row duplicating the stored
transaction, one with amount zero — is appended in full. -/
theorem import_appends_all_witness :
    (∀ r ∈ [dupRow, zeroAmountRow], (insertRaw r).isSome)
    ∧ (runImport [sampleTx] [dupRow, zeroAmountRow]).1.length
        = [sampleTx].length + [dupRow, zeroAmountRow].length :=
  ⟨by decide,
    (import_appends_all [sampleTx] [dupRow, zeroAmountRow] (by decide)).2.1⟩

/-- A second sample transaction, an expense. -/
def sampleTx2 : Transaction :=
  ⟨⟨2024, 4, 5⟩, expenseLabel, "인건비", none, none, 40⟩

/-- A sample active project. -/
def sampleProject : Project := ⟨"A", some "Acme", 1000, "active"⟩

/-- Witness for C8: swapping two concrete transactions leaves the metrics
tuple unchanged. -/
theorem metrics_perm_invariant_witness :
    ([sampleTx, sampleTx2].Perm [sampleTx2, sampleTx])
    ∧ calculate_metrics [sampleTx, sampleTx2]
        = calculate_metrics [sampleTx2, sampleTx] :=
  ⟨List.Perm.swap sampleTx2 sampleTx [],
    metrics_perm_invariant _ _ (List.Perm.swap sampleTx2 sampleTx [])⟩

/-! ### C9: the export artifact -/

theorem sorted_get_transactions (table : List Transaction) (s e : Option Date) :
    List.Sorted dateDesc (get_transactions table s e) := by
  unfold get_transactions
  exact List.sorted_insertionSort dateDesc _

/-- Counterexample to C9 as stated: with one transaction in the window and
no active project, an artifact is produced but it has a single named
section, not two — the projects sheet is written only when at least one
active project exists (app.py line 450). -/
theorem export_two_sections_counterexample :
    ([sampleTx] : List Transaction) ≠ []
    ∧ exportArtifact [sampleTx] [] = some [("거래내역", Sheet.txSheet [sampleTx])]
    ∧ ((exportArtifact [sampleTx] []).getD []).length = 1 :=
  ⟨by simp, rfl, rfl⟩

/-- C9, amended.  When the filtered window is non-empty the export
produces an artifact whose first named section is the window itself
(date-descending); the active-projects section is included exactly when at
least one active project exists, so the artifact has two sections in that
case and one otherwise.  No artifact is produced for an empty window. -/
theorem export_sections (table : List Transaction) (projTable : List Project)
    (s e : Option Date) :
    (get_transactions table s e = [] →
      exportArtifact (get_transactions table s e) projTable = none)
    ∧ (get_transactions table s e ≠ [] →
      ∃ sections,
        exportArtifact (get_transactions table s e) projTable = some sections
        ∧ sections.head? = some ("거래내역", Sheet.txSheet (get_transactions table s e))
        ∧ List.Sorted dateDesc (get_transactions table s e)
        ∧ (("프로젝트", Sheet.projSheet (get_projects projTable)) ∈ sections
            ↔ get_projects projTable ≠ [])
        ∧ sections.length = (if get_projects projTable = [] then 1 else 2)) := by
  constructor
  · intro hemp
    simp [exportArtifact, hemp]
  · intro hne
    by_cases hp : get_projects projTable = []
    · refine ⟨[("거래내역", Sheet.txSheet (get_transactions table s e))],
        ?_, rfl, sorted_get_transactions table s e, ?_, ?_⟩
      · simp [exportArtifact, hne, hp]
      · simp [hp]
      · simp [hp]
    · refine ⟨[("거래내역", Sheet.txSheet (get_transactions table s e)),
        ("프로젝트", Sheet.projSheet (get_projects projTable))],
        ?_, rfl, sorted_get_transactions table s e, ?_, ?_⟩
      · simp [exportArtifact, hne, hp]
      · simp [hp]
      · simp [hp]

/-- Witness for the amended C9: one stored transaction and one active
project give a two-section artifact headed by the transactions sheet. -/
theorem export_sections_witness :
    (get_transactions [sampleTx] none none ≠ [])
    ∧ (∃ sections,
        exportArtifact (get_transactions [sampleTx] none none) [sampleProject]
          = some sections
        ∧ sections.head?
            = some ("거래내역", Sheet.txSheet (get_transactions [sampleTx] none none))
        ∧ List.Sorted dateDesc (get_transactions [sampleTx] none none)
        ∧ (("프로젝트", Sheet.projSheet (get_projects [sampleProject])) ∈ sections
            ↔ get_projects [sampleProject] ≠ [])
        ∧ sections.length = (if get_projects [sampleProject] = [] then 1 else 2)) :=
  ⟨by decide,
    (export_sections [sampleTx] [sampleProject] none none).2 (by decide)⟩

/-! ### C3: the Period Reporter -/

theorem cellSum_eq_monthTypeSum (df : List Transaction) (m : Nat × Nat)
    (ty : String) : cellSum df (m, ty) = monthTypeSum df m ty := by
  unfold cellSum monthTypeSum
  rw [← typeSum_eq, List.filter_filter]
  have hsw : df.filter (fun t => (monthKey t, t.type) == (m, ty))
      = df.filter (fun t => (t.type == ty) && (monthKey t == m)) := by
    apply List.filter_congr
    intro t _
    rw [Bool.eq_iff_iff]
    by_cases h1 : monthKey t = m <;> by_cases h2 : t.type = ty <;>
      simp [h1, h2, Prod.ext_iff]
  rw [hsw]

theorem pivotGet_eq (df : List Transaction) (m : Nat × Nat) (ty : String) :
    pivotGet df m ty = monthTypeSum df m ty := by
  unfold pivotGet
  cases hfind : (groupedCells df).find? (fun g => g.1 == (m, ty)) with
  | some g =>
    have hmem := List.mem_of_find?_eq_some hfind
    have hpred := List.find?_some hfind
    obtain ⟨c, hc, rfl⟩ := List.mem_map.mp hmem
    obtain rfl : c = (m, ty) := by simpa using hpred
    exact cellSum_eq_monthTypeSum df m ty
  | none =>
    have hno : ∀ t ∈ df, ¬(monthKey t = m ∧ t.type = ty) := by
      intro t ht hcon
      have hmemcell : ((m, ty) : (Nat × Nat) × String) ∈ pivotCells df := by
        unfold pivotCells
        rw [List.mem_insertionSort, List.mem_dedup]
        exact List.mem_map.mpr ⟨t, ht, by rw [hcon.1, hcon.2]⟩
      have hdrop := List.find?_eq_none.mp hfind ((m, ty), cellSum df (m, ty))
        (List.mem_map.mpr ⟨(m, ty), hmemcell, rfl⟩)
      simp at hdrop
    rw [monthTypeSum]
    symm
    apply sumByType_eq_zero
    intro t ht hty
    exact hno t (List.mem_of_mem_filter ht)
      ⟨by simpa using List.of_mem_filter ht, hty⟩

theorem monthAxis_pairwise_lt (df : List Transaction) :
    (monthAxis df).Pairwise monthLt := by
  have hs : List.Sorted monthLe (monthAxis df) :=
    List.sorted_insertionSort _ _
  have hn : (monthAxis df).Nodup :=
    (List.perm_insertionSort monthLe _).nodup_iff.mpr (List.nodup_dedup _)
  refine (hs.and hn).imp ?_
  intro a b hab
  obtain ⟨h1, h2⟩ := hab
  unfold monthLe at h1
  unfold monthLt
  have hne : a.1 ≠ b.1 ∨ a.2 ≠ b.2 := by
    by_contra hc
    push_neg at hc
    exact h2 (Prod.ext hc.1 hc.2)
  omega

theorem monthly_report_fst (df : List Transaction) (h : df ≠ []) :
    (monthly_report df).map Prod.fst = monthAxis df := by
  unfold monthly_report
  rw [if_neg h, List.map_map]
  exact List.map_id _

/-- C3.  The Period Reporter produces one row per distinct year-month
present in the input (the bucket of a transaction uses only the year and
month of its date), rows are ordered strictly ascending by month, and
each row reports the income sum, the expense sum, and their difference
for that month, a type with no activity in the month contributing `0`
rather than the row being dropped. -/
theorem monthly_report_spec (df : List Transaction) :
    ((monthly_report df).map Prod.fst).Pairwise monthLt
    ∧ (∀ m : Nat × Nat, m ∈ (monthly_report df).map Prod.fst ↔ m ∈ df.map monthKey)
    ∧ (∀ t : Transaction, monthKey t = (t.date.year, t.date.month))
    ∧ (∀ row ∈ monthly_report df,
        row.2.1 = monthTypeSum df row.1 incomeLabel
        ∧ row.2.2.1 = monthTypeSum df row.1 expenseLabel
        ∧ row.2.2.2 = row.2.1 - row.2.2.1) := by
  by_cases h : df = []
  · subst h
    refine ⟨by simp [monthly_report], by simp [monthly_report],
      fun t => rfl, ?_⟩
    intro row hrow
    simp [monthly_report] at hrow
  · refine ⟨?_, ?_, fun t => rfl, ?_⟩
    · rw [monthly_report_fst df h]
      exact monthAxis_pairwise_lt df
    · intro m
      rw [monthly_report_fst df h]
      unfold monthAxis
      rw [List.mem_insertionSort, List.mem_dedup]
    · intro row hrow
      unfold monthly_report at hrow
      rw [if_neg h] at hrow
      obtain ⟨m, hm, rfl⟩ := List.mem_map.mp hrow
      exact ⟨pivotGet_eq df m incomeLabel, pivotGet_eq df m expenseLabel, rfl⟩

end GidFinance
